import Mathlib

/-!
Verification of the graph-nav orchestration engine in nav_sdk_ros2/autonomous.py.

This file gives a shallow embedding of the parts of the source that the spec
claims talk about: the edge matcher and route builder, the power lifecycle,
the navigation poll loops (to-waypoint, route, anchored-pose continuous and
single-step), the graph cache, and the outward action-server execute callback.
Remote calls are recorded as events; remote replies are supplied by scripted
environments; unbounded while-loops are run on explicit fuel, where a none
result means the loop did not terminate within the given fuel.
-/

namespace SpotNav

/-- Waypoint identifiers as used throughout the source: uninterpreted id strings. -/
abbrev Wp := String

/-- Edge identifier, mirroring map_pb2.Edge.Id with its from_waypoint and
to_waypoint fields as constructed in GraphNavInterface._match_edge. -/
structure EdgeId where
  from_waypoint : Wp
  to_waypoint : Wp
deriving DecidableEq

/-- Quaternion values as the source builds them: Quat() is the identity,
Quat.from_yaw builds one from a yaw angle, and the full four-component form
comes from a seven-argument request.  Components are modelled as integers;
no arithmetic on them is needed by any claim. -/
inductive Quat where
  | ident
  | from_yaw (yaw : Int)
  | quat_full (w x y z : Int)
deriving DecidableEq

/-- SE3Pose as used by the source: a position plus a rotation. -/
structure SE3 where
  px : Int
  py : Int
  pz : Int
  rot : Quat
deriving DecidableEq

/-- Remote navigation feedback statuses distinguished by
GraphNavInterface._check_success; unknownStatus stands for any other value. -/
inductive NavStatus where
  | reachedGoal
  | lost
  | stuck
  | impaired
  | inProgress
  | unknownStatus
deriving DecidableEq

/-- The statuses on which _check_success returns True (the navigation command
is finished): STATUS_REACHED_GOAL, STATUS_LOST, STATUS_STUCK and
STATUS_ROBOT_IMPAIRED.  Everything else makes the poll loop continue. -/
def isTerminalStatus : NavStatus → Bool
  | NavStatus.reachedGoal => true
  | NavStatus.lost => true
  | NavStatus.stuck => true
  | NavStatus.impaired => true
  | NavStatus.inProgress => false
  | NavStatus.unknownStatus => false

/-- Remote calls issued by the controller, recorded as an event trace.
The cont argument of the two navigate commands is the continuation
command id passed to the remote service (none when no handle is passed). -/
inductive Event where
  | powerOnCmd
  | safePowerOffCmd
  | getLocState
  | navigateToCmd (wp : Wp) (cont : Option Nat)
  | navigateToAnchorCmd (goal : SE3) (cont : Option Nat)
  | navigateRouteCmd (wps : List Wp) (edges : List EdgeId)
  | feedbackQuery (h : Nat)
  | clearGraphCmd
deriving DecidableEq

/-- GraphNavInterface._check_success.  The absent command id (the -1 sentinel
default of the source) is modelled as none.  Returns the is_finished boolean
together with the remote feedback queries made: for an absent id the source
returns False immediately and queries nothing; otherwise it queries
navigation_feedback for the id and classifies the status. -/
def checkSuccess (feedback : Nat → NavStatus) : Option Nat → Bool × List Event
  | none => (false, [])
  | some cid => (isTerminalStatus (feedback cid), [Event.feedbackQuery cid])

/-- Inner loop of GraphNavInterface._match_edge: scan the recorded
from-waypoints of one to-waypoint key, returning the first edge id whose
recorded (to, from) pair equals the requested pair in either order. -/
def matchEdgeRow (edgeToId : Wp) (froms : List Wp) (w1 w2 : Wp) : Option EdgeId :=
  match froms with
  | [] => none
  | f :: rest =>
    if w1 = edgeToId ∧ w2 = f then some ⟨w2, w1⟩
    else if w2 = edgeToId ∧ w1 = f then some ⟨w1, w2⟩
    else matchEdgeRow edgeToId rest w1 w2

/-- GraphNavInterface._match_edge: current_edges maps each to-waypoint to the
list of from-waypoints recorded for it (here an association list, iterated in
order); the first matching directed entry, in either traversal direction,
wins. -/
def matchEdge (adj : List (Wp × List Wp)) (w1 w2 : Wp) : Option EdgeId :=
  match adj with
  | [] => none
  | (t, fs) :: rest =>
    match matchEdgeRow t fs w1 w2 with
    | some e => some e
    | none => matchEdge rest w1 w2

theorem matchEdgeRow_symm (t : Wp) (fs : List Wp) (a b : Wp) :
    matchEdgeRow t fs a b = matchEdgeRow t fs b a := by
  induction fs with
  | nil => rfl
  | cons f rest ih =>
    simp only [matchEdgeRow]
    by_cases h1 : a = t ∧ b = f <;> by_cases h2 : b = t ∧ a = f
    · have hab : a = b := h1.1.trans h2.1.symm
      rw [if_pos h1, if_pos h2, hab]
    · rw [if_pos h1, if_neg h2, if_pos h1]
    · rw [if_neg h1, if_pos h2, if_pos h2]
    · rw [if_neg h1, if_neg h2, if_neg h2, if_neg h1, ih]

/-- Claim C9: the edge matcher is symmetric in its waypoint arguments: for
every adjacency mapping and waypoint pair, matchEdge adj a b equals
matchEdge adj b a (an edge recorded in either direction matches the
unordered pair, and the returned id carries the recorded direction). -/
theorem c9_match_edge_symm : ∀ (adj : List (Wp × List Wp)) (a b : Wp),
    matchEdge adj a b = matchEdge adj b a := by
  intro adj a b
  induction adj with
  | nil => rfl
  | cons hd rest ih =>
    obtain ⟨t, fs⟩ := hd
    simp only [matchEdge]
    rw [matchEdgeRow_symm]
    cases matchEdgeRow t fs b a with
    | none => simpa using ih
    | some e => rfl

/-- The consecutive waypoint pairs of a requested route, in request order:
the pairs (ids[i], ids[i+1]) that the edge-matching loop of
GraphNavInterface._navigate_route walks through. -/
def consecPairs (ids : List Wp) : List (Wp × Wp) := ids.zip ids.tail

/-- The edge-matching loop of GraphNavInterface._navigate_route (the route
builder): match each consecutive pair in order, collecting the edge ids;
the first pair with no matching edge aborts with exactly that pair, and no
incomplete edge list is produced. -/
def matchEdgeList (adj : List (Wp × List Wp)) : List Wp → Except (Wp × Wp) (List EdgeId)
  | [] => Except.ok []
  | [_] => Except.ok []
  | a :: b :: rest =>
    match matchEdge adj a b with
    | none => Except.error (a, b)
    | some e =>
      match matchEdgeList adj (b :: rest) with
      | Except.error p => Except.error p
      | Except.ok es => Except.ok (e :: es)

/-- Whether the route builder found every required edge. -/
def routeBuildOk : Except (Wp × Wp) (List EdgeId) → Bool
  | Except.ok _ => true
  | Except.error _ => false

theorem matchEdgeList_ok_iff (adj : List (Wp × List Wp)) (ids : List Wp) :
    routeBuildOk (matchEdgeList adj ids) = true ↔
      ∀ p ∈ consecPairs ids, (matchEdge adj p.1 p.2).isSome = true := by
  induction ids with
  | nil => simp [matchEdgeList, routeBuildOk, consecPairs]
  | cons a tl ih =>
    cases tl with
    | nil => simp [matchEdgeList, routeBuildOk, consecPairs]
    | cons b rest =>
      have hpairs : consecPairs (a :: b :: rest) = (a, b) :: consecPairs (b :: rest) := rfl
      rw [hpairs]
      cases hm : matchEdge adj a b with
      | none =>
        simp only [matchEdgeList, hm, routeBuildOk]
        constructor
        · intro h; exact absurd h (by simp)
        · intro h
          have := h (a, b) (by simp)
          rw [hm] at this
          simp [Option.isSome] at this
      | some e =>
        simp only [matchEdgeList, hm]
        cases hrec : matchEdgeList adj (b :: rest) with
        | error p =>
          simp only [routeBuildOk]
          rw [hrec] at ih
          simp only [routeBuildOk] at ih
          constructor
          · intro h; exact absurd h (by simp)
          · intro h
            have hall : ∀ p ∈ consecPairs (b :: rest), (matchEdge adj p.1 p.2).isSome = true := by
              intro q hq; exact h q (by simp [hq])
            exact absurd (ih.mpr hall) (by simp)
        | ok es =>
          simp only [routeBuildOk]
          rw [hrec] at ih
          simp only [routeBuildOk] at ih
          constructor
          · intro _
            intro q hq
            rcases List.mem_cons.mp hq with hq1 | hq2
            · subst hq1; simp [hm]
            · exact (ih.mp (by trivial)) q hq2
          · intro _; trivial

theorem matchEdgeList_error_iff (adj : List (Wp × List Wp)) (ids : List Wp) (p : Wp × Wp) :
    matchEdgeList adj ids = Except.error p ↔
      (consecPairs ids).find? (fun q => (matchEdge adj q.1 q.2).isNone) = some p := by
  induction ids with
  | nil => simp [matchEdgeList, consecPairs]
  | cons a tl ih =>
    cases tl with
    | nil => simp [matchEdgeList, consecPairs]
    | cons b rest =>
      have hpairs : consecPairs (a :: b :: rest) = (a, b) :: consecPairs (b :: rest) := rfl
      rw [hpairs]
      cases hm : matchEdge adj a b with
      | none =>
        rw [List.find?_cons_of_pos _ (by simp [hm])]
        simp only [matchEdgeList, hm]
        constructor
        · intro h
          cases h
          rfl
        · intro h
          cases h
          rfl
      | some e =>
        rw [List.find?_cons_of_neg _ (by simp [hm])]
        simp only [matchEdgeList, hm]
        cases hrec : matchEdgeList adj (b :: rest) with
        | error q =>
          rw [hrec] at ih
          simpa using ih
        | ok es =>
          rw [hrec] at ih
          constructor
          · intro h; exact absurd h (by simp)
          · intro h
            exact absurd (ih.mpr h) (by simp)

/-!  Power lifecycle: GraphNavInterface.toggle_power and check_is_powered_on.
The motor power of the robot as observed by successive get_robot_state calls is a
scripted stream obs : Nat to Bool; obs 0 is the observation made by the
check_is_powered_on call at the top of toggle_power, and the wait loop then
consumes obs 1, obs 2, and so on. -/

/-- The unused field _max_attempts_to_wait of GraphNavInterface.__init__,
documented in the source as the number of attempts to wait before trying to
re-power on.  No code path reads it. -/
def maxAttemptsToWait : Nat := 50

/-- The wait loop inside toggle_power after power_on_motors: poll the robot
state until the motors are observed on.  The source loop has no attempt
bound; fuel makes the recursion well founded, and a none result means the
loop was still polling when the fuel ran out. -/
def powerWaitLoop (obs : Nat → Bool) (i : Nat) : Nat → Option Nat
  | 0 => none
  | fuel + 1 => if obs i then some i else powerWaitLoop obs (i + 1) fuel

/-- GraphNavInterface.toggle_power.  Returns the events issued and the final
locally stored powered-on flag (the trailing check_is_powered_on observation),
or none when the power-on wait loop exceeds the fuel, since the source loop
would still be running. -/
def togglePower (shouldPowerOn : Bool) (obs : Nat → Bool) (fuel : Nat) :
    Option (List Event × Bool) :=
  let isPoweredOn := obs 0
  if !isPoweredOn && shouldPowerOn then
    match powerWaitLoop obs 1 fuel with
    | none => none
    | some j => some ([Event.powerOnCmd], obs (j + 1))
  else if isPoweredOn && !shouldPowerOn then
    some ([Event.safePowerOffCmd], obs 1)
  else
    some ([], isPoweredOn)

theorem powerWaitLoop_allOff (i : Nat) : ∀ fuel, powerWaitLoop (fun _ => false) i fuel = none := by
  intro fuel
  induction fuel generalizing i with
  | zero => rfl
  | succ n ih => simpa [powerWaitLoop] using ih (i + 1)

/-- Claim C4: toggle_power(should_power_on=True) from an observed Off state is
claimed to poll only up to a maximum wait and report a timeout failure
otherwise.  The code has no such bound: if the robot is never observed On the
wait loop never exits, in particular it is still polling after
maxAttemptsToWait attempts (the _max_attempts_to_wait field is never used),
and no timeout failure is ever reported. -/
theorem c4_power_wait_unbounded :
    (∀ fuel, togglePower true (fun _ => false) fuel = none) ∧
      togglePower true (fun _ => false) (maxAttemptsToWait + 1) = none := by
  constructor
  · intro fuel
    simp [togglePower, powerWaitLoop_allOff]
  · simp [togglePower, powerWaitLoop_allOff]

/-!  Locally tracked power flags: _started_powered_on is set once in
GraphNavInterface.__init__ from the observed motor power state and never
assigned again; _powered_on is refreshed by every check_is_powered_on call
(directly or inside toggle_power) from the observed state. -/

/-- The pair of power flags stored on the controller. -/
structure PowerCtx where
  startedPoweredOn : Bool
  poweredOn : Bool
deriving DecidableEq

/-- GraphNavInterface.__init__ lines 80-83: both flags start as the initially
observed motor power state. -/
def initPowerCtx (obs0 : Bool) : PowerCtx := ⟨obs0, obs0⟩

/-- GraphNavInterface.check_is_powered_on: store the newly observed state. -/
def checkIsPoweredOn (c : PowerCtx) (obs : Bool) : PowerCtx := ⟨c.startedPoweredOn, obs⟩

/-- Any sequence of later power-state observations applied to the flags:
every assignment to _powered_on in the source goes through
check_is_powered_on, and nothing ever reassigns _started_powered_on. -/
def applyPowerObs (c : PowerCtx) (l : List Bool) : PowerCtx := l.foldl checkIsPoweredOn c

/-- The guard of GraphNavInterface._on_quit (and of the power-off cleanup in
run): safe power off is commanded only when _powered_on holds and
_started_powered_on does not. -/
def onQuitPowersOff (c : PowerCtx) : Bool := c.poweredOn && !c.startedPoweredOn

/-- The identical guard at the end of GraphNavInterface._navigate_route. -/
def routeCleanupPowersOff (c : PowerCtx) : Bool := c.poweredOn && !c.startedPoweredOn

theorem applyPowerObs_started (l : List Bool) : ∀ c : PowerCtx,
    (applyPowerObs c l).startedPoweredOn = c.startedPoweredOn := by
  induction l with
  | nil => intro c; rfl
  | cons x xs ih =>
    intro c
    simpa [applyPowerObs, checkIsPoweredOn] using ih ⟨c.startedPoweredOn, x⟩

/-- One poll-loop iteration of the route navigation environment: the handle
returned by navigate_route and the status navigation_feedback reports for
it. -/
structure RouteIterEnv where
  retHandle : Nat
  status : NavStatus

/-- The poll loop of GraphNavInterface._navigate_route: each iteration issues
navigate_route(route, cmd_duration=1.0) with no continuation command id,
sleeps, and classifies the feedback with _check_success; it exits when the
status is terminal.  none means the loop outlived the fuel. -/
def navigateRouteLoop (wps : List Wp) (edges : List EdgeId) (env : Nat → RouteIterEnv)
    (i : Nat) : Nat → Option (List Event × Bool)
  | 0 => none
  | fuel + 1 =>
    let e := env i
    let fin := checkSuccess (fun _ => e.status) (some e.retHandle)
    let here := Event.navigateRouteCmd wps edges :: fin.2
    if fin.1 then some (here, true)
    else
      match navigateRouteLoop wps edges env (i + 1) fuel with
      | none => none
      | some (evs, b) => some (here ++ evs, b)

/-- Outcome of a route navigation attempt. -/
inductive RouteResult where
  | noEdge (a b : Wp)
  | powerFail
  | finished
deriving DecidableEq

/-- GraphNavInterface._navigate_route from the edge-matching loop on (the
waypoint tokens are taken as already resolved ids): build the edge list,
abort on the first unmatched pair before any remote command, otherwise power
on, run the poll loop, and finally power off only under the
_powered_on and not _started_powered_on guard. -/
def navigateRouteOp (adj : List (Wp × List Wp)) (ids : List Wp) (startedPoweredOn : Bool)
    (powerObs : Nat → Bool) (powerFuel : Nat) (cleanupObs : Nat → Bool)
    (env : Nat → RouteIterEnv) (fuel : Nat) : Option (List Event × RouteResult) :=
  match matchEdgeList adj ids with
  | Except.error p => some ([], RouteResult.noEdge p.1 p.2)
  | Except.ok edges =>
    match togglePower true powerObs powerFuel with
    | none => none
    | some (pev, poweredOn) =>
      if !poweredOn then some (pev, RouteResult.powerFail)
      else
        match navigateRouteLoop ids edges env 0 fuel with
        | none => none
        | some (evs, _) =>
          if poweredOn && !startedPoweredOn then
            match togglePower false cleanupObs powerFuel with
            | none => none
            | some (cev, _) => some (pev ++ evs ++ cev, RouteResult.finished)
          else
            some (pev ++ evs, RouteResult.finished)

theorem togglePower_on_no_safeoff (obs : Nat → Bool) (fuel : Nat) (ev : List Event) (b : Bool)
    (h : togglePower true obs fuel = some (ev, b)) : Event.safePowerOffCmd ∉ ev := by
  simp only [togglePower] at h
  by_cases h0 : obs 0
  · simp [h0] at h
    obtain ⟨hev, -⟩ := h
    subst hev
    simp
  · cases hw : powerWaitLoop obs 1 fuel with
    | none => simp [h0, hw] at h
    | some j =>
      simp [h0, hw] at h
      obtain ⟨hev, -⟩ := h
      subst hev
      simp

theorem navigateRouteLoop_no_safeoff (wps : List Wp) (edges : List EdgeId)
    (env : Nat → RouteIterEnv) :
    ∀ fuel i evs b, navigateRouteLoop wps edges env i fuel = some (evs, b) →
      Event.safePowerOffCmd ∉ evs := by
  intro fuel
  induction fuel with
  | zero => intro i evs b h; exact absurd h (by simp [navigateRouteLoop])
  | succ n ih =>
    intro i evs b h
    simp only [navigateRouteLoop, checkSuccess] at h
    by_cases hfin : isTerminalStatus (env i).status
    · simp [hfin] at h
      rcases h with ⟨hev, _⟩
      simp [← hev]
    · cases hrec : navigateRouteLoop wps edges env (i + 1) n with
      | none => simp [hfin, hrec] at h
      | some pr =>
        obtain ⟨evs', b'⟩ := pr
        simp [hfin, hrec] at h
        rcases h with ⟨hev, _⟩
        have hnot := ih (i + 1) evs' b' hrec
        simp [← hev, hnot]

/-- Claim C8: the route builder over N waypoint ids succeeds iff each of the
N-1 consecutive pairs has a matching edge; on failure it reports exactly the
first unmatched pair (the first entry of the pair list failing the match),
returns no route at all, and the operation issues no navigation or power
command at all. -/
theorem c8_build_route_first_unmatched (adj : List (Wp × List Wp)) (ids : List Wp) :
    (routeBuildOk (matchEdgeList adj ids) = true ↔
      ∀ p ∈ consecPairs ids, (matchEdge adj p.1 p.2).isSome = true) ∧
    (∀ p, matchEdgeList adj ids = Except.error p ↔
      (consecPairs ids).find? (fun q => (matchEdge adj q.1 q.2).isNone) = some p) ∧
    (∀ p startedPoweredOn pObs pf cObs env fuel,
      matchEdgeList adj ids = Except.error p →
      navigateRouteOp adj ids startedPoweredOn pObs pf cObs env fuel =
        some ([], RouteResult.noEdge p.1 p.2)) := by
  refine ⟨matchEdgeList_ok_iff adj ids, fun p => matchEdgeList_error_iff adj ids p, ?_⟩
  intro p startedPoweredOn pObs pf cObs env fuel h
  simp [navigateRouteOp, h]

/-- Concrete waypoint ids used by the concrete runs below. -/
def wpA : Wp := "a"

/-- Second concrete waypoint id. -/
def wpB : Wp := "b"

/-- Third concrete waypoint id. -/
def wpC : Wp := "c"

/-- Witness for claim C8: in a graph with one recorded edge b <- a, the route
a, b, c fails on the pair (b, c), and the operation makes no remote call. -/
theorem c8_build_route_witness :
    navigateRouteOp [(wpB, [wpA])] [wpA, wpB, wpC] true (fun _ => true) 1 (fun _ => true)
      (fun _ => ⟨3, NavStatus.reachedGoal⟩) 1 =
      some ([], RouteResult.noEdge wpB wpC) :=
  (c8_build_route_first_unmatched [(wpB, [wpA])] [wpA, wpB, wpC]).2.2 (wpB, wpC) true
    (fun _ => true) 1 (fun _ => true) (fun _ => ⟨3, NavStatus.reachedGoal⟩) 1 (by rfl)

/-- Claim C5: cleanup powers the robot off only when the controller itself
performed the power-on transition.  If the robot was observed On at
controller start (_started_powered_on true), then after any sequence of
later power observations neither the _on_quit guard nor the _navigate_route
cleanup guard fires, and a full route navigation issues no safe-power-off
command on any path. -/
theorem c5_conditional_power_off :
    (∀ l, onQuitPowersOff (applyPowerObs (initPowerCtx true) l) = false) ∧
    (∀ l, routeCleanupPowersOff (applyPowerObs (initPowerCtx true) l) = false) ∧
    (∀ adj ids pObs pf cObs env fuel r,
      navigateRouteOp adj ids true pObs pf cObs env fuel = some r →
      Event.safePowerOffCmd ∉ r.1) := by
  refine ⟨?_, ?_, ?_⟩
  · intro l
    have hs : (applyPowerObs (initPowerCtx true) l).startedPoweredOn = true := by
      rw [applyPowerObs_started]; rfl
    simp [onQuitPowersOff, hs]
  · intro l
    have hs : (applyPowerObs (initPowerCtx true) l).startedPoweredOn = true := by
      rw [applyPowerObs_started]; rfl
    simp [routeCleanupPowersOff, hs]
  · intro adj ids pObs pf cObs env fuel r h
    simp only [navigateRouteOp] at h
    cases hm : matchEdgeList adj ids with
    | error p =>
      rw [hm] at h
      simp at h
      rw [← h]
      simp
    | ok edges =>
      rw [hm] at h
      cases ht : togglePower true pObs pf with
      | none => rw [ht] at h; exact absurd h (by simp)
      | some pr =>
        obtain ⟨pev, poweredOn⟩ := pr
        rw [ht] at h
        have hpev := togglePower_on_no_safeoff pObs pf pev poweredOn ht
        by_cases hp : poweredOn
        · simp [hp] at h
          cases hl : navigateRouteLoop ids edges env 0 fuel with
          | none => rw [hl] at h; exact absurd h (by simp)
          | some lr =>
            obtain ⟨evs, fin⟩ := lr
            rw [hl] at h
            have hevs := navigateRouteLoop_no_safeoff ids edges env fuel 0 evs fin hl
            simp at h
            rw [← h]
            simp [hpev, hevs]
        · simp [hp] at h
          rw [← h]
          simpa using hpev

/-- Witness for claim C5: a one-edge route navigation that starts powered on
and reaches its goal issues a route command and a feedback query but no
safe-power-off command. -/
theorem c5_conditional_power_off_witness :
    Event.safePowerOffCmd ∉
      [Event.navigateRouteCmd [wpA, wpB] [⟨wpA, wpB⟩], Event.feedbackQuery 3] :=
  c5_conditional_power_off.2.2 [(wpB, [wpA])] [wpA, wpB] (fun _ => true) 1 (fun _ => true)
    (fun _ => ⟨3, NavStatus.reachedGoal⟩) 1
    ([Event.navigateRouteCmd [wpA, wpB] [⟨wpA, wpB⟩], Event.feedbackQuery 3],
      RouteResult.finished) (by decide)

/-!  Anchored-pose navigation and the outward action server. -/

/-- The controller state touched by anchored-pose navigation: the _flag_nav
in-flight flag, the captured _seed_T_goal, and the robot-state fields that
feed outward feedback. -/
structure Ctrl where
  flag_nav : Bool
  seed_T_goal : SE3
  robot_state_x : Int
  robot_state_y : Int
  robot_state_yaw : Int
deriving DecidableEq

/-- Stand-in for the yaw component of the external tf_transformations
euler_from_quaternion call.  Coordinate-frame math is an external library at
the interface boundary; no claim depends on the numeric value, only on which
pose the value is read from. -/
def eulerYaw : Quat → Int
  | Quat.ident => 0
  | Quat.from_yaw y => y
  | Quat.quat_full _ _ _ z => z

/-- One navigation command issuance: the continuation command id passed to
the remote call and the handle the remote service returned for it. -/
structure Issue where
  cont : Option Nat
  ret : Nat
deriving DecidableEq

/-- How one _navigate_to_anchor_once call ends: a Python return value (none
for the early returns, some is_finished for a completed step) or an
exception propagating out of the call. -/
inductive StepExit where
  | ret (r : Option Bool)
  | raised
deriving DecidableEq

/-- Scripted remote replies for one _navigate_to_anchor_once call: the
localization waypoint id (none when not localized) and seed pose, the power
observation stream for toggle_power, whether the navigate_to_anchor issuance
raises, the handle it returns otherwise, and the feedback status for that
handle. -/
structure StepEnv where
  locWaypointId : Option Wp
  locPose : SE3
  powerObs : Nat → Bool
  navRaises : Bool
  retHandle : Nat
  status : NavStatus

/-- Result of one modelled _navigate_to_anchor_once call. -/
structure StepOut where
  ctrl : Ctrl
  events : List Event
  issues : List Issue
  exit : StepExit
deriving DecidableEq

/-- First-call setup block of GraphNavInterface._navigate_to_anchor_once,
run only while _flag_nav is False: validate the argument count, capture
_seed_T_goal from the arguments (z defaulting to the current localized seed
height, with an early return when not localized; the rotation from yaw or a
full quaternion), then power on.  An error value carries the state and
events of an early return; ok means the step body may proceed.  none means
the power-on wait loop outlived its fuel. -/
def anchorOnceSetup (c : Ctrl) (args : List Int) (env : StepEnv) (powerFuel : Nat) :
    Option (Except (Ctrl × List Event) (Ctrl × List Event)) :=
  if args.length = 2 ∨ args.length = 3 ∨ args.length = 4 ∨ args.length = 7 then
    let c1 := { c with seed_T_goal := ⟨args.getD 0 0, args.getD 1 0, 0, Quat.ident⟩ }
    let zStep : Except (List Event) (Ctrl × List Event) :=
      if args.length = 4 ∨ args.length = 7 then
        Except.ok ({ c1 with seed_T_goal := { c1.seed_T_goal with pz := args.getD 2 0 } }, [])
      else
        match env.locWaypointId with
        | none => Except.error [Event.getLocState]
        | some _ =>
          Except.ok ({ c1 with seed_T_goal := { c1.seed_T_goal with pz := env.locPose.pz } },
            [Event.getLocState])
    match zStep with
    | Except.error ev => some (Except.error (c1, ev))
    | Except.ok (c2, ev) =>
      let rot :=
        if args.length = 3 then Quat.from_yaw (args.getD 2 0)
        else if args.length = 4 then Quat.from_yaw (args.getD 3 0)
        else if args.length = 7 then
          Quat.quat_full (args.getD 3 0) (args.getD 4 0) (args.getD 5 0) (args.getD 6 0)
        else c2.seed_T_goal.rot
      let c3 := { c2 with seed_T_goal := { c2.seed_T_goal with rot := rot } }
      match togglePower true env.powerObs powerFuel with
      | none => none
      | some (pev, poweredOn) =>
        if poweredOn then some (Except.ok (c3, ev ++ pev))
        else some (Except.error (c3, ev ++ pev))
  else
    some (Except.error (c, []))

/-- GraphNavInterface._navigate_to_anchor_once.  When _flag_nav is already
set the whole setup block is skipped, so the coordinate arguments are never
read; the step body then sets _flag_nav, reads localization into the
robot-state fields, issues navigate_to_anchor for the captured _seed_T_goal
with the local nav_to_cmd_id as continuation (always None: the local is
re-initialised on every call), sleeps, classifies feedback with
_check_success, and clears _flag_nav only when the command is finished. -/
def navigateToAnchorOnce (c : Ctrl) (args : List Int) (env : StepEnv) (powerFuel : Nat) :
    Option StepOut :=
  match (if c.flag_nav then some (Except.ok (c, ([] : List Event)))
         else anchorOnceSetup c args env powerFuel) with
  | none => none
  | some (Except.error (c1, ev)) => some ⟨c1, ev, [], StepExit.ret none⟩
  | some (Except.ok (c1, ev)) =>
    let c2 := { c1 with
      flag_nav := true,
      robot_state_x := env.locPose.px,
      robot_state_y := env.locPose.py,
      robot_state_yaw := eulerYaw env.locPose.rot }
    if env.navRaises then
      some ⟨c2, ev ++ [Event.getLocState], [], StepExit.raised⟩
    else
      let fin := checkSuccess (fun _ => env.status) (some env.retHandle)
      let c3 := if fin.1 then { c2 with flag_nav := false } else c2
      some ⟨c3,
        ev ++ [Event.getLocState, Event.navigateToAnchorCmd c2.seed_T_goal none] ++ fin.2,
        [⟨none, env.retHandle⟩], StepExit.ret (some fin.1)⟩

/-- Scripted remote replies for one iteration of the _navigate_to poll loop:
whether the issuance raises ResponseError, the handle it returns otherwise,
and the feedback status for that handle. -/
structure NavIterEnv where
  raises : Bool
  retHandle : Nat
  status : NavStatus

/-- The poll loop of GraphNavInterface._navigate_to: each iteration reads
localization, issues navigate_to with the current nav_to_cmd_id as
continuation, stores the returned handle for the next iteration, sleeps, and
classifies feedback with _check_success; a ResponseError during issuance
breaks the loop.  Returns the events, the issuances, and the final
is_finished flag; none means the loop outlived the fuel. -/
def navigateToLoop (dest : Wp) (env : Nat → NavIterEnv) (cmdId : Option Nat) (i : Nat) :
    Nat → Option (List Event × List Issue × Bool)
  | 0 => none
  | fuel + 1 =>
    let e := env i
    if e.raises then some ([Event.getLocState], [], false)
    else
      let fin := checkSuccess (fun _ => e.status) (some e.retHandle)
      let here := [Event.getLocState, Event.navigateToCmd dest cmdId] ++ fin.2
      if fin.1 then some (here, [⟨cmdId, e.retHandle⟩], true)
      else
        match navigateToLoop dest env (some e.retHandle) (i + 1) fuel with
        | none => none
        | some (evs, iss, b) => some (here ++ evs, ⟨cmdId, e.retHandle⟩ :: iss, b)

/-- Scripted remote replies for one iteration of the continuous
_navigate_to_anchor poll loop. -/
structure AnchorIterEnv where
  raises : Bool
  locPose : SE3
  retHandle : Nat
  status : NavStatus

/-- The poll loop of GraphNavInterface._navigate_to_anchor (continuous
variant): like the _navigate_to loop, but it also copies the localized seed
pose into the robot-state fields and issues navigate_to_anchor for the fixed
goal with the threaded command id. -/
def navigateToAnchorLoop (goal : SE3) (env : Nat → AnchorIterEnv) (cmdId : Option Nat)
    (i : Nat) (c : Ctrl) : Nat → Option (Ctrl × List Event × List Issue × Bool)
  | 0 => none
  | fuel + 1 =>
    let e := env i
    let c1 := { c with
      robot_state_x := e.locPose.px,
      robot_state_y := e.locPose.py,
      robot_state_yaw := eulerYaw e.locPose.rot }
    if e.raises then some (c1, [Event.getLocState], [], false)
    else
      let fin := checkSuccess (fun _ => e.status) (some e.retHandle)
      let here := [Event.getLocState, Event.navigateToAnchorCmd goal cmdId] ++ fin.2
      if fin.1 then some (c1, here, [⟨cmdId, e.retHandle⟩], true)
      else
        match navigateToAnchorLoop goal env (some e.retHandle) (i + 1) c1 fuel with
        | none => none
        | some (c2, evs, iss, b) => some (c2, here ++ evs, ⟨cmdId, e.retHandle⟩ :: iss, b)

/-- Outward action outcome: the goal was canceled, succeeded with
success = True, or produced a result with success = False (lease unavailable
or a caught exception). -/
inductive Outcome where
  | cancelled
  | success
  | failed
deriving DecidableEq

/-- One outward feedback message: the robot-state x, y and yaw fields. -/
structure NavFeedback where
  x : Int
  y : Int
  yaw : Int
deriving DecidableEq

/-- Result of one execute_callback run. -/
structure ExecResult where
  outcome : Outcome
  feedbacks : List NavFeedback
  events : List Event
  issues : List Issue
  leaseAcquired : Bool
  leaseReleased : Bool
  finalCtrl : Ctrl
deriving DecidableEq

/-- The cooperative loop inside NavROS2SDK.execute_callback: each iteration
first checks the cancel request (returning a canceled result with no further
feedback); otherwise it runs one single-step navigation
(run_next_position_once with the stored goal coordinates), publishes one
feedback message from the robot-state fields, succeeds with success = True
when the step reports finished, turns a raised exception into a
success = False result, and loops otherwise.  The scoped LeaseKeepAlive
releases the lease on every exit from the with-block, recorded by
leaseReleased.  none means the loop outlived the fuel. -/
def execLoop (gx gy gyaw : Int) (cancel : Nat → Bool) (env : Nat → StepEnv)
    (powerFuel : Nat) (c : Ctrl) (i : Nat) : Nat → Option ExecResult
  | 0 => none
  | fuel + 1 =>
    if cancel i then some ⟨Outcome.cancelled, [], [], [], true, true, c⟩
    else
      match navigateToAnchorOnce c [gx, gy, gyaw] (env i) powerFuel with
      | none => none
      | some out =>
        match out.exit with
        | StepExit.raised =>
          some ⟨Outcome.failed, [], out.events, out.issues, true, true, out.ctrl⟩
        | StepExit.ret r =>
          let fb : NavFeedback :=
            ⟨out.ctrl.robot_state_x, out.ctrl.robot_state_y, out.ctrl.robot_state_yaw⟩
          if r = some true then
            some ⟨Outcome.success, [fb], out.events, out.issues, true, true, out.ctrl⟩
          else
            match execLoop gx gy gyaw cancel env powerFuel out.ctrl (i + 1) fuel with
            | none => none
            | some res =>
              some ⟨res.outcome, fb :: res.feedbacks, out.events ++ res.events,
                out.issues ++ res.issues, res.leaseAcquired, res.leaseReleased,
                res.finalCtrl⟩

/-- NavROS2SDK.execute_callback: acquire the lease with must_acquire and
return_at_exit; when it is already claimed elsewhere, report success = False
at once without entering the loop or touching the robot. -/
def executeCallback (gx gy gyaw : Int) (cancel : Nat → Bool) (env : Nat → StepEnv)
    (powerFuel : Nat) (leaseAvailable : Bool) (c : Ctrl) (fuel : Nat) : Option ExecResult :=
  if leaseAvailable then execLoop gx gy gyaw cancel env powerFuel c 0 fuel
  else some ⟨Outcome.failed, [], [], [], false, false, c⟩

/-!  The locally cached graph. -/

/-- The graph message as cached locally: the content of map_pb2.Graph
relevant here (waypoints, edges, and the anchor count). -/
structure GraphMsg where
  waypoints : List Wp
  edges : List EdgeId
  anchors : Nat
deriving DecidableEq

/-- The locally cached graph state of GraphNavInterface: _current_graph,
_current_edges, and the name-to-waypoint-id view. -/
structure GraphCache where
  current_graph : Option GraphMsg
  current_edges : List (Wp × List Wp)
  nameToWpId : List (Wp × Wp)
deriving DecidableEq

/-- GraphNavInterface._clear_graph: forward clear_graph to the remote
service and return its reply; no local cache field is assigned. -/
def clearGraph (s : GraphCache) : GraphCache × List Event := (s, [Event.clearGraphCmd])

/-- Counterexample for claim C2: with the command handle absent the status
check returns is_finished = false with no remote feedback call.  false is
the same non-terminal answer that an in-progress status produces, so a poll
loop would continue, not stop with a terminal Failure(NoCommand) outcome. -/
theorem c2_absent_handle_not_terminal :
    checkSuccess (fun _ => NavStatus.inProgress) none = (false, []) ∧
      (checkSuccess (fun _ => NavStatus.inProgress) (some 0)).1 = false := by
  exact ⟨rfl, rfl⟩

/-- Claim C2 amended: for every feedback environment, an absent command
handle makes the status check return immediately with no remote feedback
call and the non-terminal continue answer, not a terminal failure. -/
theorem c2_absent_handle_no_remote_call :
    ∀ feedback : Nat → NavStatus, checkSuccess feedback none = (false, []) :=
  fun _ => rfl

/-- A concrete loaded graph used by the clear-graph counterexample. -/
def g0 : GraphMsg := ⟨[wpA, wpB], [⟨wpA, wpB⟩], 1⟩

/-- A cache state holding g0 together with the views derived from it. -/
def cache0 : GraphCache := ⟨some g0, [(wpB, [wpA])], [(wpA, wpA)]⟩

/-- Counterexample for claim C6: after clearGraph returns, the controller
still holds the previously loaded graph, and the local state derived from
it, as current: the clear request is forwarded but nothing local is
invalidated. -/
theorem c6_clear_graph_keeps_cache :
    (clearGraph cache0).2 = [Event.clearGraphCmd] ∧
      (clearGraph cache0).1.current_graph = some g0 ∧
      some g0 ≠ (none : Option GraphMsg) ∧
      (clearGraph cache0).1 = cache0 := by
  refine ⟨rfl, rfl, ?_, rfl⟩
  simp

/-- Claim C6 amended: clearGraph forwards exactly one clear request to the
remote service and leaves every locally cached graph field unchanged. -/
theorem c6_clear_graph_amended :
    ∀ s : GraphCache, clearGraph s = (s, [Event.clearGraphCmd]) :=
  fun _ => rfl

/-- Claim C7: a task whose cancellation signal is already set before its
first feedback emission reports cancelled, never success or failed, emits no
feedback, issues no remote command, and the scoped lease acquisition is
released on that exit path. -/
theorem c7_cancel_before_first_feedback :
    (∀ gx gy gyaw env powerFuel c fuel,
      executeCallback gx gy gyaw (fun _ => true) env powerFuel true c (fuel + 1) =
        some ⟨Outcome.cancelled, [], [], [], true, true, c⟩) ∧
    Outcome.cancelled ≠ Outcome.success ∧ Outcome.cancelled ≠ Outcome.failed := by
  refine ⟨fun gx gy gyaw env powerFuel c fuel => ?_, by simp, by simp⟩
  simp [executeCallback, execLoop]

/-- Scripted environment for concrete execute-callback runs: the robot is
localized at seed pose (5, 6, 7), power is already on, the issuance of
iteration i returns handle i, and feedback follows the given status script
(in-progress past its end). -/
def scriptEnv (statuses : List NavStatus) (i : Nat) : StepEnv :=
  ⟨some wpA, ⟨5, 6, 7, Quat.ident⟩, fun _ => true, false, i,
    statuses.getD i NavStatus.inProgress⟩

/-- Number of navigate-to-anchor commands in a trace. -/
def countAnchorCmds : List Event → Nat
  | [] => 0
  | Event.navigateToAnchorCmd _ _ :: rest => countAnchorCmds rest + 1
  | _ :: rest => countAnchorCmds rest

/-- Initial controller state: no navigation in flight. -/
def ctrl0 : Ctrl := ⟨false, ⟨0, 0, 0, Quat.ident⟩, 0, 0, 0⟩

/-- Claim C1 evaluated on the code.  For the scripted feedback sequence
[InProgress, InProgress, ReachedGoal] the action-server path issues exactly
3 navigation commands and reports success, as the claim states.  For
[InProgress, Lost] it issues exactly 2 commands and stops at the terminal
status, but the outward result is ALSO success (goal_handle.succeed with
success = True): _check_success returns the same True for Lost as for
ReachedGoal, and execute_callback maps any True step result to success, so
the claimed distinct Failure(Lost) outcome never reaches the caller. -/
theorem c1_lost_reported_success :
    ((executeCallback 1 2 3 (fun _ => false)
        (scriptEnv [NavStatus.inProgress, NavStatus.inProgress, NavStatus.reachedGoal]) 1
        true ctrl0 10).map (fun r => (countAnchorCmds r.events, r.outcome)) =
      some (3, Outcome.success)) ∧
    ((executeCallback 1 2 3 (fun _ => false)
        (scriptEnv [NavStatus.inProgress, NavStatus.lost]) 1
        true ctrl0 10).map (fun r => (countAnchorCmds r.events, r.outcome)) =
      some (2, Outcome.success)) ∧
    Outcome.success ≠ Outcome.failed := by
  exact ⟨by decide, by decide, by simp⟩

/-- Counterexample for claim C3: in a two-iteration single-step run through
the action-server path, both navigate-to-anchor issuances pass continuation
id none; in particular the second issuance does not pass the handle 0 that
the first issuance returned, so the remote service is not told to continue
the in-flight command. -/
theorem c3_single_step_not_threaded :
    (executeCallback 1 2 3 (fun _ => false)
        (scriptEnv [NavStatus.inProgress, NavStatus.reachedGoal]) 1 true ctrl0 5).map
      (fun r => r.issues) = some [⟨none, 0⟩, ⟨none, 1⟩] ∧
    (none : Option Nat) ≠ some 0 := by
  exact ⟨by decide, by simp⟩

theorem navigateToLoop_issues_thread (dest : Wp) (env : Nat → NavIterEnv) :
    ∀ fuel cmdId i evs iss b,
      navigateToLoop dest env cmdId i fuel = some (evs, iss, b) →
      List.Chain' (fun a c => c.cont = some a.ret) iss ∧
      ∀ a ∈ iss.head?, a.cont = cmdId := by
  intro fuel
  induction fuel with
  | zero =>
    intro cmdId i evs iss b h
    exact absurd h (by simp [navigateToLoop])
  | succ n ih =>
    intro cmdId i evs iss b h
    simp only [navigateToLoop, checkSuccess] at h
    cases hr : (env i).raises with
    | true =>
      simp [hr] at h
      obtain ⟨-, hiss, -⟩ := h
      subst hiss
      simp
    | false =>
      cases hs : isTerminalStatus (env i).status with
      | true =>
        simp [hr, hs] at h
        obtain ⟨-, hiss, -⟩ := h
        subst hiss
        simp
      | false =>
        cases hrec : navigateToLoop dest env (some (env i).retHandle) (i + 1) n with
        | none => simp [hr, hs, hrec] at h
        | some trip =>
          obtain ⟨evs', iss', b'⟩ := trip
          simp [hr, hs, hrec] at h
          obtain ⟨-, hiss, -⟩ := h
          subst hiss
          obtain ⟨hchain, hhead⟩ := ih (some (env i).retHandle) (i + 1) evs' iss' b' hrec
          refine ⟨List.chain'_cons'.mpr ⟨?_, hchain⟩, by simp⟩
          intro y hy
          exact hhead y hy

theorem navigateToAnchorLoop_issues_thread (goal : SE3) (env : Nat → AnchorIterEnv) :
    ∀ fuel cmdId i c c2 evs iss b,
      navigateToAnchorLoop goal env cmdId i c fuel = some (c2, evs, iss, b) →
      List.Chain' (fun a c => c.cont = some a.ret) iss ∧
      ∀ a ∈ iss.head?, a.cont = cmdId := by
  intro fuel
  induction fuel with
  | zero =>
    intro cmdId i c c2 evs iss b h
    exact absurd h (by simp [navigateToAnchorLoop])
  | succ n ih =>
    intro cmdId i c c2 evs iss b h
    simp only [navigateToAnchorLoop, checkSuccess] at h
    cases hr : (env i).raises with
    | true =>
      simp [hr] at h
      obtain ⟨-, -, hiss, -⟩ := h
      subst hiss
      simp
    | false =>
      cases hs : isTerminalStatus (env i).status with
      | true =>
        simp [hr, hs] at h
        obtain ⟨-, -, hiss, -⟩ := h
        subst hiss
        simp
      | false =>
        simp [hr, hs] at h
        split at h
        · exact absurd h (by simp)
        · rename_i c' evs' iss' b' heq
          simp only [Option.some.injEq, Prod.mk.injEq] at h
          obtain ⟨-, -, hiss, -⟩ := h
          subst hiss
          obtain ⟨hchain, hhead⟩ := ih _ _ _ _ _ _ _ heq
          refine ⟨List.chain'_cons'.mpr ⟨?_, hchain⟩, by simp⟩
          intro y hy
          exact hhead y hy

theorem navigateRouteLoop_events_shape (wps : List Wp) (edges : List EdgeId)
    (env : Nat → RouteIterEnv) :
    ∀ fuel i evs b, navigateRouteLoop wps edges env i fuel = some (evs, b) →
      ∀ e ∈ evs, e = Event.navigateRouteCmd wps edges ∨ ∃ h, e = Event.feedbackQuery h := by
  intro fuel
  induction fuel with
  | zero =>
    intro i evs b h
    exact absurd h (by simp [navigateRouteLoop])
  | succ n ih =>
    intro i evs b h
    simp only [navigateRouteLoop, checkSuccess] at h
    cases hs : isTerminalStatus (env i).status with
    | true =>
      simp [hs] at h
      obtain ⟨hev, -⟩ := h
      subst hev
      intro e he
      simp at he
      rcases he with he | he
      · exact Or.inl he
      · exact Or.inr ⟨(env i).retHandle, he⟩
    | false =>
      cases hrec : navigateRouteLoop wps edges env (i + 1) n with
      | none => simp [hs, hrec] at h
      | some pr =>
        obtain ⟨evs', b'⟩ := pr
        simp [hs, hrec] at h
        obtain ⟨hev, -⟩ := h
        subst hev
        intro e he
        simp at he
        rcases he with he | he | he
        · exact Or.inl he
        · exact Or.inr ⟨(env i).retHandle, he⟩
        · exact ih (i + 1) evs' b' hrec e he

theorem navigateToAnchorOnce_issues_none (c : Ctrl) (args : List Int) (env : StepEnv)
    (powerFuel : Nat) (out : StepOut)
    (h : navigateToAnchorOnce c args env powerFuel = some out) :
    ∀ a ∈ out.issues, a.cont = none := by
  simp only [navigateToAnchorOnce] at h
  split at h
  · exact absurd h (by simp)
  · simp only [Option.some.injEq] at h
    subst h
    simp
  · split at h
    · simp only [Option.some.injEq] at h
      subst h
      simp
    · simp only [Option.some.injEq] at h
      subst h
      simp

/-- Claim C3 amended: the to-waypoint and continuous anchored-pose poll
loops do thread the handle: starting from no handle, every issuance after
the first passes exactly the handle returned by the previous issuance.  The
route poll loop, however, issues a fresh navigate_route command for the
whole route on every iteration, with no continuation id in the call; and
the single-step anchored variant re-initialises its local handle on every
invocation, so every one of its issuances passes none. -/
theorem c3_handle_threading :
    (∀ dest env i fuel evs iss b,
      navigateToLoop dest env none i fuel = some (evs, iss, b) →
      List.Chain' (fun a c => c.cont = some a.ret) iss) ∧
    (∀ goal env i c fuel c2 evs iss b,
      navigateToAnchorLoop goal env none i c fuel = some (c2, evs, iss, b) →
      List.Chain' (fun a c => c.cont = some a.ret) iss) ∧
    (∀ wps edges env i fuel evs b,
      navigateRouteLoop wps edges env i fuel = some (evs, b) →
      ∀ e ∈ evs, e = Event.navigateRouteCmd wps edges ∨ ∃ h, e = Event.feedbackQuery h) ∧
    (∀ c args env powerFuel out,
      navigateToAnchorOnce c args env powerFuel = some out →
      ∀ a ∈ out.issues, a.cont = none) := by
  refine ⟨?_, ?_, ?_, ?_⟩
  · intro dest env i fuel evs iss b h
    exact (navigateToLoop_issues_thread dest env fuel none i evs iss b h).1
  · intro goal env i c fuel c2 evs iss b h
    exact (navigateToAnchorLoop_issues_thread goal env fuel none i c c2 evs iss b h).1
  · intro wps edges env i fuel evs b h
    exact navigateRouteLoop_events_shape wps edges env fuel i evs b h
  · intro c args env powerFuel out h
    exact navigateToAnchorOnce_issues_none c args env powerFuel out h

/-- Witness for the amended claim C3: a concrete two-iteration to-waypoint
run whose second issuance passes the handle 5 returned by the first. -/
theorem c3_handle_threading_witness :
    List.Chain' (fun a c => c.cont = some a.ret) [(⟨none, 5⟩ : Issue), ⟨some 5, 6⟩] :=
  c3_handle_threading.1 wpA
    (fun i => ⟨false, i + 5, if i = 0 then NavStatus.inProgress else NavStatus.reachedGoal⟩)
    0 3
    [Event.getLocState, Event.navigateToCmd wpA none, Event.feedbackQuery 5,
      Event.getLocState, Event.navigateToCmd wpA (some 5), Event.feedbackQuery 6]
    [⟨none, 5⟩, ⟨some 5, 6⟩] true (by decide)

/-- The goal pose captured by a first single-step call with arguments
(1, 2, 3) against scriptEnv: x = 1, y = 2, z defaulted from the localized
seed height 7, rotation from yaw 3. -/
def c10goal : SE3 := ⟨1, 2, 7, Quat.from_yaw 3⟩

/-- The goal poses of the navigate-to-anchor commands in a trace. -/
def anchorGoals : List Event → List SE3
  | [] => []
  | Event.navigateToAnchorCmd g _ :: rest => g :: anchorGoals rest
  | _ :: rest => anchorGoals rest

/-- An execute-callback run cancelled at its second iteration, mid-flight:
iteration 0 captures the goal, issues the command and sees in-progress
feedback; iteration 1 observes the cancel request and returns. -/
def c10run : Option ExecResult :=
  executeCallback 1 2 3 (fun i => decide (i = 1))
    (scriptEnv [NavStatus.inProgress, NavStatus.inProgress]) 1 true ctrl0 5

/-- Claim C10: while _flag_nav is set, a single-step call ignores its
coordinate arguments entirely: the stored goal stays the captured
_seed_T_goal, the command it issues targets that captured goal (with no
continuation id), and the flag is cleared exactly when the feedback status
is terminal, while a raised issuance leaves it set.  Concretely, a run
cancelled mid-flight ends with the flag still set, and a following
invocation with fresh coordinates still commands the stale captured goal. -/
theorem c10_inflight_ignores_arguments :
    (∀ c args env powerFuel out, c.flag_nav = true →
      navigateToAnchorOnce c args env powerFuel = some out →
      out.ctrl.seed_T_goal = c.seed_T_goal ∧
      (env.navRaises = false →
        Event.navigateToAnchorCmd c.seed_T_goal none ∈ out.events ∧
        (out.ctrl.flag_nav = false ↔ isTerminalStatus env.status = true)) ∧
      (env.navRaises = true → out.ctrl.flag_nav = true)) ∧
    (c10run.map (fun r => r.outcome) = some Outcome.cancelled ∧
     c10run.map (fun r => r.finalCtrl.flag_nav) = some true ∧
     (c10run.bind (fun r =>
        navigateToAnchorOnce r.finalCtrl [9, 9, 9] (scriptEnv [] 0) 1)).map
          (fun out => anchorGoals out.events) = some [c10goal]) := by
  constructor
  · intro c args env powerFuel out hflag h
    obtain ⟨octrl, oev, oiss, oexit⟩ := out
    cases hr : env.navRaises with
    | true =>
      simp [navigateToAnchorOnce, hflag, hr] at h
      obtain ⟨hctrl, hev, hiss, hexit⟩ := h
      subst hctrl
      refine ⟨rfl, ?_, ?_⟩
      · intro hx; exact absurd hx (by simp)
      · intro _; rfl
    | false =>
      cases hs : isTerminalStatus env.status with
      | true =>
        simp [navigateToAnchorOnce, checkSuccess, hflag, hr, hs] at h
        obtain ⟨hctrl, hev, hiss, hexit⟩ := h
        subst hctrl
        subst hev
        refine ⟨rfl, ?_, ?_⟩
        · intro _
          constructor
          · simp
          · simp
        · intro hx; exact absurd hx (by simp)
      | false =>
        simp [navigateToAnchorOnce, checkSuccess, hflag, hr, hs] at h
        obtain ⟨hctrl, hev, hiss, hexit⟩ := h
        subst hctrl
        subst hev
        refine ⟨rfl, ?_, ?_⟩
        · intro _
          constructor
          · simp
          · simp
        · intro hx; exact absurd hx (by simp)
  · exact ⟨by decide, by decide, by decide⟩

/-- The concrete step result of the witness invocation below. -/
def stepOutW : StepOut :=
  ⟨⟨true, c10goal, 5, 6, 0⟩,
    [Event.getLocState, Event.navigateToAnchorCmd c10goal none, Event.feedbackQuery 0],
    [⟨none, 0⟩], StepExit.ret (some false)⟩

/-- Witness for claim C10: a concrete mid-flight state with captured goal
c10goal; a call with fresh coordinates (9, 9, 9) keeps the stored goal,
commands c10goal, and keeps the flag set because feedback is in-progress. -/
theorem c10_inflight_witness :
    stepOutW.ctrl.seed_T_goal = (⟨true, c10goal, 0, 0, 0⟩ : Ctrl).seed_T_goal ∧
    ((scriptEnv [] 0).navRaises = false →
      Event.navigateToAnchorCmd (⟨true, c10goal, 0, 0, 0⟩ : Ctrl).seed_T_goal none ∈
        stepOutW.events ∧
      (stepOutW.ctrl.flag_nav = false ↔ isTerminalStatus (scriptEnv [] 0).status = true)) ∧
    ((scriptEnv [] 0).navRaises = true → stepOutW.ctrl.flag_nav = true) :=
  c10_inflight_ignores_arguments.1 ⟨true, c10goal, 0, 0, 0⟩ [9, 9, 9] (scriptEnv [] 0) 1
    stepOutW rfl (by decide)

end SpotNav
